import Mathlib

set_option maxRecDepth 100000

/-!
Verification of the deploy_api orchestrator: a shallow embedding of the
fingerprint generator (`src/utils.py`), the project materializer
(`src/docker_manager.py`), the container lifecycle manager and registry
(`src/deploy_manager.py`), together with theorems settling the spec claims.
-/

namespace DeployApi

/-! ### Byte-level helpers: UTF-8 encoding of strings -/

/-- UTF-8 encoding of a single character, as a list of byte values.
Mirrors `str.encode('utf-8')` for one code point. -/
def utf8Char (c : Char) : List Nat :=
  let n := c.toNat
  if n < 128 then [n]
  else if n < 2048 then [192 + n / 64, 128 + n % 64]
  else if n < 65536 then [224 + n / 4096, 128 + n / 64 % 64, 128 + n % 64]
  else [240 + n / 262144, 128 + n / 4096 % 64, 128 + n / 64 % 64, 128 + n % 64]

/-- UTF-8 encoding of a string as a byte list (`s.encode('utf-8')`). -/
def utf8Bytes (s : String) : List Nat :=
  s.data.flatMap utf8Char

/-! ### SHA-256 (`hashlib.sha256`), over `Nat` with explicit mod 2^32 -/

/-- Addition modulo 2^32. -/
def add32 (a b : Nat) : Nat := (a + b) % 4294967296

/-- Right rotation of a 32-bit word (argument assumed < 2^32). -/
def rotr (n x : Nat) : Nat := x / 2 ^ n + x % 2 ^ n * 2 ^ (32 - n)

/-- Bitwise complement of a 32-bit word. -/
def bnot32 (x : Nat) : Nat := 4294967295 - x

/-- SHA-256 Ch function. -/
def shaCh (e f g : Nat) : Nat := (e &&& f) ^^^ (bnot32 e &&& g)

/-- SHA-256 Maj function. -/
def shaMaj (a b c : Nat) : Nat := (a &&& b) ^^^ (a &&& c) ^^^ (b &&& c)

/-- SHA-256 big sigma 0. -/
def bsig0 (x : Nat) : Nat := rotr 2 x ^^^ rotr 13 x ^^^ rotr 22 x

/-- SHA-256 big sigma 1. -/
def bsig1 (x : Nat) : Nat := rotr 6 x ^^^ rotr 11 x ^^^ rotr 25 x

/-- SHA-256 small sigma 0. -/
def ssig0 (x : Nat) : Nat := rotr 7 x ^^^ rotr 18 x ^^^ x / 8

/-- SHA-256 small sigma 1. -/
def ssig1 (x : Nat) : Nat := rotr 17 x ^^^ rotr 19 x ^^^ x / 1024

/-- The 64 SHA-256 round constants (decimal). -/
def K256 : List Nat :=
  [1116352408, 1899447441, 3049323471, 3921009573,
   961987163, 1508970993, 2453635748, 2870763221,
   3624381080, 310598401, 607225278, 1426881987,
   1925078388, 2162078206, 2614888103, 3248222580,
   3835390401, 4022224774, 264347078, 604807628,
   770255983, 1249150122, 1555081692, 1996064986,
   2554220882, 2821834349, 2952996808, 3210313671,
   3336571891, 3584528711, 113926993, 338241895,
   666307205, 773529912, 1294757372, 1396182291,
   1695183700, 1986661051, 2177026350, 2456956037,
   2730485921, 2820302411, 3259730800, 3345764771,
   3516065817, 3600352804, 4094571909, 275423344,
   430227734, 506948616, 659060556, 883997877,
   958139571, 1322822218, 1537002063, 1747873779,
   1955562222, 2024104815, 2227730452, 2361852424,
   2428436474, 2756734187, 3204031479, 3329325298]

/-- The SHA-256 working state: eight 32-bit registers. -/
structure Hash8 where
  a : Nat
  b : Nat
  c : Nat
  d : Nat
  e : Nat
  f : Nat
  g : Nat
  h : Nat
deriving DecidableEq

/-- SHA-256 initial hash value (decimal). -/
def H0 : Hash8 :=
  ⟨1779033703, 3144134277, 1013904242, 2773480762,
   1359893119, 2600822924, 528734635, 1541459225⟩

/-- One SHA-256 compression round, consuming one (round constant, schedule word) pair. -/
def shaRound (st : Hash8) (kw : Nat × Nat) : Hash8 :=
  let t1 := add32 (add32 (add32 (add32 st.h (bsig1 st.e)) (shaCh st.e st.f st.g)) kw.1) kw.2
  let t2 := add32 (bsig0 st.a) (shaMaj st.a st.b st.c)
  ⟨add32 t1 t2, st.a, st.b, st.c, add32 st.d t1, st.e, st.f, st.g⟩

/-- One step of the message-schedule extension: appends word W[n] computed
from W[n-2], W[n-7], W[n-15], W[n-16]. -/
def extendStep (w : List Nat) : List Nat :=
  let n := w.length
  w ++ [add32 (add32 (ssig1 (w.getD (n - 2) 0)) (w.getD (n - 7) 0))
              (add32 (ssig0 (w.getD (n - 15) 0)) (w.getD (n - 16) 0))]

/-- Extends a 16-word block to the 64-word message schedule. -/
def extendW (w : List Nat) : List Nat := extendStep^[48] w

/-- Packs a byte list into big-endian 32-bit words. -/
def toWords : List Nat → List Nat
  | b0 :: b1 :: b2 :: b3 :: rest =>
    (b0 * 16777216 + b1 * 65536 + b2 * 256 + b3) :: toWords rest
  | _ => []

/-- Compresses one 64-byte block into the running hash state. -/
def compressBlock (st : Hash8) (block : List Nat) : Hash8 :=
  let w := extendW (toWords block)
  let r := (K256.zip w).foldl shaRound st
  ⟨add32 st.a r.a, add32 st.b r.b, add32 st.c r.c, add32 st.d r.d,
   add32 st.e r.e, add32 st.f r.f, add32 st.g r.g, add32 st.h r.h⟩

/-- The message length encoded as 8 big-endian bytes. -/
def lenBytes (n : Nat) : List Nat :=
  [n / 2 ^ 56 % 256, n / 2 ^ 48 % 256, n / 2 ^ 40 % 256, n / 2 ^ 32 % 256,
   n / 2 ^ 24 % 256, n / 2 ^ 16 % 256, n / 2 ^ 8 % 256, n % 256]

/-- SHA-256 padding: append 0x80, zeros, and the 64-bit bit length. -/
def padBytes (msg : List Nat) : List Nat :=
  let L := msg.length
  msg ++ [128] ++ List.replicate ((119 - L % 64) % 64) 0 ++ lenBytes (8 * L)

/-- Processes `n` consecutive 64-byte blocks. -/
def processN : Nat → Hash8 → List Nat → Hash8
  | 0, st, _ => st
  | n + 1, st, bs => processN n (compressBlock st (bs.take 64)) (bs.drop 64)

/-- The four big-endian bytes of a 32-bit word. -/
def wordBytes (w : Nat) : List Nat :=
  [w / 16777216 % 256, w / 65536 % 256, w / 256 % 256, w % 256]

/-- The eight registers of a hash state, as a list. -/
def Hash8.toList (st : Hash8) : List Nat :=
  [st.a, st.b, st.c, st.d, st.e, st.f, st.g, st.h]

/-- SHA-256 digest of a byte list, as a list of 32 byte values. -/
def sha256bytes (msg : List Nat) : List Nat :=
  let p := padBytes msg
  (processN (p.length / 64) H0 p).toList.flatMap wordBytes

/-- The sixteen lowercase hexadecimal digits. -/
def hexChars : List Char := "0123456789abcdef".data

/-- The lowercase hex digit for a value. -/
def hexDigit (n : Nat) : Char := hexChars.getD (n % 16) '0'

/-- Lowercase hex rendering of a byte list (`.hexdigest()`), as characters. -/
def hexOfBytes (bs : List Nat) : List Char :=
  bs.flatMap fun b => [hexDigit (b / 16 % 16), hexDigit (b % 16)]

/-- The SHA-256 lowercase hex digest of a string (`hashlib.sha256(s.encode('utf-8')).hexdigest()`),
as a character list. -/
def sha256hexChars (s : String) : List Char :=
  hexOfBytes (sha256bytes (utf8Bytes s))

example : String.mk (sha256hexChars "abc") =
    "ba7816bf8f01cfea414140de5dae2223b00361a396177a9cb410ff61f20015ad" := by decide

example : String.mk (sha256hexChars "") =
    "e3b0c44298fc1c149afbf4c8996fb92427ae41e4649b934ca495991b7852b855" := by decide

/-! ### `generate_hash` and `prepare_file_content` (`src/utils.py`) -/

/-- The content of a file entry: either plain text or a JSON object
(the two shapes `generate_hash` and `prepare_file_content` distinguish). -/
inductive FContent
  | text (s : String)
  | dict (kvs : List (String × String))
deriving DecidableEq

/-- One element of the `files` list: a dict with a `name` and a `content`. -/
structure FileEntry where
  name : String
  content : FContent
deriving DecidableEq

/-- A JSON string literal (no escaping needed for the plain keys and values used here). -/
def jstr (s : String) : String := "\"" ++ s ++ "\""

/-- Executable lexicographic strict comparison of character lists
(Python's string `<`, by code points). -/
def charListLt : List Char → List Char → Bool
  | [], [] => false
  | [], _ :: _ => true
  | _ :: _, [] => false
  | a :: as, b :: bs => decide (a < b) || (decide (a = b) && charListLt as bs)

/-- Executable strict string comparison. -/
def strLtB (a b : String) : Bool := charListLt a.data b.data

/-- Executable string comparison `a <= b`, i.e. not `b < a`. -/
def strLeB (a b : String) : Bool := !(strLtB b a)

theorem charListLt_iff : ∀ as bs : List Char, charListLt as bs = true ↔ as < bs
  | [], [] => by
    simp only [charListLt, Bool.false_eq_true, false_iff]
    exact fun h => nomatch h
  | [], b :: bs => by
    simp only [charListLt, true_iff]
    exact List.Lex.nil
  | _ :: _, [] => by
    simp only [charListLt, Bool.false_eq_true, false_iff]
    exact fun h => nomatch h
  | a :: as, b :: bs => by
    simp only [charListLt, Bool.or_eq_true, Bool.and_eq_true, decide_eq_true_eq,
      charListLt_iff as bs]
    constructor
    · rintro (h | ⟨rfl, htail⟩)
      · exact List.Lex.rel h
      · exact List.Lex.cons htail
    · intro h
      cases h with
      | cons h3 => exact Or.inr ⟨rfl, h3⟩
      | rel h1 => exact Or.inl h1

theorem strLeB_iff (a b : String) : strLeB a b = true ↔ a ≤ b := by
  have hlt : strLtB b a = true ↔ b < a := by
    rw [String.lt_iff_toList_lt]
    exact charListLt_iff b.data a.data
  constructor
  · intro hle
    refine not_lt.mp fun hba => ?_
    have := hlt.mpr hba
    simp [strLeB, this] at hle
  · intro hle
    have : ¬ strLtB b a = true := fun hb => absurd (hlt.mp hb) (not_lt.mpr hle)
    simp [strLeB, Bool.not_eq_true] at this ⊢
    exact this

/-- Key comparison on key-value pairs, used by `json.dumps(..., sort_keys=True)`. -/
def keyLe (a b : String × String) : Prop := a.1 ≤ b.1

instance : DecidableRel keyLe := fun a b => decidable_of_iff _ (strLeB_iff a.1 b.1)

instance : IsTotal (String × String) keyLe := ⟨fun a b => le_total a.1 b.1⟩

instance : IsTrans (String × String) keyLe := ⟨fun _ _ _ hab hbc => le_trans hab hbc⟩

/-- `json.dumps(d, sort_keys=True)`: keys sorted, default separators. -/
def dumpsSorted (kvs : List (String × String)) : String :=
  "\x7b" ++ String.intercalate ", "
    ((List.insertionSort keyLe kvs).map fun kv => jstr kv.1 ++ ": " ++ jstr kv.2) ++ "\x7d"

/-- Serialization of a content value inside `generate_hash`:
`json.dumps(content, sort_keys=True)` for dicts, `str(content)` otherwise. -/
def serializeContent : FContent → String
  | .text s => s
  | .dict kvs => dumpsSorted kvs

/-- `json.dumps(d, indent=2, ensure_ascii=False)`: keys in insertion order. -/
def dumpsIndent2 (kvs : List (String × String)) : String :=
  if kvs = [] then "\x7b\x7d"
  else "\x7b\n" ++ String.intercalate ",\n"
    (kvs.map fun kv => "  " ++ jstr kv.1 ++ ": " ++ jstr kv.2) ++ "\n\x7d"

/-- `prepare_file_content`: dicts are pretty-printed JSON, other content is `str()`. -/
def prepare_file_content : FContent → String
  | .text s => s
  | .dict kvs => dumpsIndent2 kvs

/-- The ordering used by `sorted(files, key=lambda x: x["name"])`.
Python's `sorted` is stable, as is `List.insertionSort`. -/
def nameLe (a b : FileEntry) : Prop := a.name ≤ b.name

instance : DecidableRel nameLe := fun a b => decidable_of_iff _ (strLeB_iff a.name b.name)

instance : IsTotal FileEntry nameLe := ⟨fun a b => le_total a.name b.name⟩

instance : IsTrans FileEntry nameLe := ⟨fun _ _ _ hab hbc => le_trans hab hbc⟩

/-- The concatenated data string built by `generate_hash`:
the owner id, then for each file (sorted by name) its name and serialized content. -/
def dataString (telegram_id : String) (files : List FileEntry) : String :=
  telegram_id ++
    String.join (((List.insertionSort nameLe files)).map fun f =>
      f.name ++ serializeContent f.content)

/-- `generate_hash(telegram_id, files)`: the first 12 characters of the SHA-256
hex digest of the data string. -/
def generate_hash (telegram_id : String) (files : List FileEntry) : String :=
  String.mk ((sha256hexChars (dataString telegram_id files)).take 12)

example : generate_hash "u" [⟨"a", .text "1"⟩, ⟨"a", .text "2"⟩] = "4a5e1c3decd7" := by decide

example : generate_hash "u" [⟨"a", .text "2"⟩, ⟨"a", .text "1"⟩] = "075f1f5a1d60" := by decide

/-! ### Sorting lemmas for the fingerprint claims -/

/-- The canonical (name, serialized content) view of a file entry: `generate_hash`
depends on a file only through this pair. -/
def canonEntry (f : FileEntry) : String × String := (f.name, serializeContent f.content)

theorem map_canon_orderedInsert (a : FileEntry) (l : List FileEntry) :
    (List.orderedInsert nameLe a l).map canonEntry =
      List.orderedInsert keyLe (canonEntry a) (l.map canonEntry) := by
  induction l with
  | nil => rfl
  | cons b l ih =>
    simp only [List.orderedInsert, List.map_cons]
    by_cases h : nameLe a b
    · rw [if_pos h, if_pos (show keyLe (canonEntry a) (canonEntry b) from h)]
      simp
    · rw [if_neg h, if_neg (show ¬ keyLe (canonEntry a) (canonEntry b) from h)]
      simp [ih]

theorem map_canon_insertionSort (l : List FileEntry) :
    (List.insertionSort nameLe l).map canonEntry =
      List.insertionSort keyLe (l.map canonEntry) := by
  induction l with
  | nil => rfl
  | cons a l ih =>
    simp only [List.insertionSort, List.map_cons]
    rw [map_canon_orderedInsert, ih]

/-- Strict ordering of pairs by first component; antisymmetric, hence usable
with `eq_of_perm_of_sorted`. -/
def fstLt (a b : String × String) : Prop := a.1 < b.1

instance : IsAntisymm (String × String) fstLt :=
  ⟨fun _ _ h1 h2 => absurd h2 (lt_asymm h1)⟩

theorem sorted_pairs_eq (l1 l2 : List (String × String)) (hp : l1.Perm l2)
    (hs1 : l1.Sorted keyLe) (hs2 : l2.Sorted keyLe)
    (hnd : (l1.map Prod.fst).Nodup) : l1 = l2 := by
  have hne1 : l1.Pairwise fun a b => a.1 ≠ b.1 := List.pairwise_map.mp hnd
  have hnd2 : (l2.map Prod.fst).Nodup := ((hp.map Prod.fst).nodup_iff).mp hnd
  have hne2 : l2.Pairwise fun a b => a.1 ≠ b.1 := List.pairwise_map.mp hnd2
  refine List.eq_of_perm_of_sorted hp (r := fstLt) ?_ ?_
  · exact (hs1.and hne1).imp fun h => lt_of_le_of_ne h.1 h.2
  · exact (hs2.and hne2).imp fun h => lt_of_le_of_ne h.1 h.2

/-- Claim C1 (amended): the fingerprint depends only on the owner id and the
multiset of canonical (name, serialized content) pairs, provided file names are
pairwise distinct. Dict contents enter only through `serializeContent`, which
sorts keys, so dicts equal as maps contribute equally. -/
theorem generate_hash_perm_invariant (tid : String) (l1 l2 : List FileEntry)
    (hperm : (l1.map canonEntry).Perm (l2.map canonEntry))
    (hnd : (l1.map FileEntry.name).Nodup) :
    generate_hash tid l1 = generate_hash tid l2 := by
  have hfst : ∀ l : List FileEntry, (l.map canonEntry).map Prod.fst = l.map FileEntry.name := by
    intro l
    rw [List.map_map]
    rfl
  have hnd1 : ((l1.map canonEntry).map Prod.fst).Nodup := by rw [hfst]; exact hnd
  have hndsorted : ((List.insertionSort keyLe (l1.map canonEntry)).map Prod.fst).Nodup :=
    (((List.perm_insertionSort keyLe (l1.map canonEntry)).map Prod.fst).nodup_iff).mpr hnd1
  have key : List.insertionSort keyLe (l1.map canonEntry) =
      List.insertionSort keyLe (l2.map canonEntry) := by
    refine sorted_pairs_eq _ _ ?_ ?_ ?_ hndsorted
    · exact ((List.perm_insertionSort _ _).trans hperm).trans
        (List.perm_insertionSort _ _).symm
    · exact List.sorted_insertionSort _ _
    · exact List.sorted_insertionSort _ _
  have hmaps : (List.insertionSort nameLe l1).map canonEntry =
      (List.insertionSort nameLe l2).map canonEntry := by
    rw [map_canon_insertionSort, map_canon_insertionSort, key]
  have hjoin : ∀ l : List FileEntry,
      (List.insertionSort nameLe l).map (fun f => f.name ++ serializeContent f.content) =
        ((List.insertionSort nameLe l).map canonEntry).map fun p => p.1 ++ p.2 := by
    intro l
    rw [List.map_map]
    rfl
  have hds : dataString tid l1 = dataString tid l2 := by
    simp only [dataString]
    rw [hjoin, hjoin, hmaps]
  simp only [generate_hash, hds]

/-- Claim C1, counterexample: two files that share the name "a" with different
contents form a permutation with the same (name, content) multiset, yet the two
orders hash differently (Python's sort keys only on the name and is stable). -/
theorem generate_hash_perm_cex :
    ([⟨"a", .text "1"⟩, ⟨"a", .text "2"⟩] : List FileEntry).Perm
        [⟨"a", .text "2"⟩, ⟨"a", .text "1"⟩] ∧
      generate_hash "u" [⟨"a", .text "1"⟩, ⟨"a", .text "2"⟩] ≠
        generate_hash "u" [⟨"a", .text "2"⟩, ⟨"a", .text "1"⟩] :=
  ⟨List.Perm.swap _ _ _, by decide⟩

/-- Witness for C1: two distinct names, in either order, hash identically. -/
theorem generate_hash_perm_invariant_witness :
    (([⟨"a", .text "1"⟩, ⟨"b", .text "2"⟩] : List FileEntry).map canonEntry).Perm
        (([⟨"b", .text "2"⟩, ⟨"a", .text "1"⟩] : List FileEntry).map canonEntry) ∧
      (([⟨"a", .text "1"⟩, ⟨"b", .text "2"⟩] : List FileEntry).map FileEntry.name).Nodup ∧
      generate_hash "u" [⟨"a", .text "1"⟩, ⟨"b", .text "2"⟩] =
        generate_hash "u" [⟨"b", .text "2"⟩, ⟨"a", .text "1"⟩] :=
  ⟨by decide, by decide,
    generate_hash_perm_invariant "u" _ _ (by decide) (by decide)⟩

/-! ### Claim C9: shape of the fingerprint -/

theorem hexOfBytes_length (bs : List Nat) : (hexOfBytes bs).length = 2 * bs.length := by
  induction bs with
  | nil => rfl
  | cons b bs ih =>
    simp only [hexOfBytes, List.flatMap_cons] at ih ⊢
    simp [ih]
    omega

theorem sha256bytes_length (msg : List Nat) : (sha256bytes msg).length = 32 := by
  simp [sha256bytes, Hash8.toList, wordBytes, List.flatMap_cons, List.flatMap_nil]

theorem hexDigit_mem (n : Nat) : hexDigit n ∈ hexChars := by
  unfold hexDigit
  have hlen : hexChars.length = 16 := by decide
  have h : n % 16 < hexChars.length := by
    rw [hlen]
    exact Nat.mod_lt _ (by norm_num)
  rw [List.getD_eq_getElem _ _ h]
  exact List.getElem_mem _

theorem mem_hexOfBytes {c : Char} {bs : List Nat} (h : c ∈ hexOfBytes bs) : c ∈ hexChars := by
  simp only [hexOfBytes, List.mem_flatMap] at h
  obtain ⟨b, _, hc⟩ := h
  simp only [List.mem_cons, List.not_mem_nil, or_false] at hc
  rcases hc with h1 | h1 <;> exact h1 ▸ hexDigit_mem _

/-- Claim C9: the fingerprint is the first 12 characters of the SHA-256 hex
digest of the data string, hence exactly 12 characters, all lowercase hex. -/
theorem generate_hash_shape (tid : String) (files : List FileEntry) :
    (generate_hash tid files).length = 12 ∧
      (∀ c ∈ (generate_hash tid files).data, c ∈ hexChars) ∧
      generate_hash tid files =
        String.mk ((sha256hexChars (dataString tid files)).take 12) := by
  refine ⟨?_, ?_, rfl⟩
  · show (String.mk _).length = 12
    have hlen : (sha256hexChars (dataString tid files)).length = 64 := by
      simp [sha256hexChars, hexOfBytes_length, sha256bytes_length]
    simp [String.length, List.length_take, hlen]
  · intro c hc
    have hc2 : c ∈ sha256hexChars (dataString tid files) :=
      List.take_subset _ _ hc
    exact mem_hexOfBytes hc2

/-! ### Path helpers (`os.path`) -/

/-- Splits a character list on a separator, keeping empty segments
(Python's `str.split(sep)`). -/
def splitOnCharAux (sep : Char) : List Char → List Char → List String
  | cur, [] => [String.mk cur.reverse]
  | cur, c :: rest =>
    if c = sep then String.mk cur.reverse :: splitOnCharAux sep [] rest
    else splitOnCharAux sep (c :: cur) rest

/-- Splits a path on "/" (Python `p.split('/')`). -/
def splitSlash (s : String) : List String := splitOnCharAux '/' [] s.data

/-- `s.lstrip('/')`. -/
def lstripSlash (s : String) : String := String.mk (s.data.dropWhile (· = '/'))

/-- Helper scanning for a contiguous substring. -/
def hasSubAux (needle : List Char) : List Char → Bool
  | [] => needle.isEmpty
  | c :: rest => needle.isPrefixOf (c :: rest) || hasSubAux needle rest

/-- Python's `needle in hay` on strings: substring containment. -/
def containsSubstr (hay needle : String) : Bool := hasSubAux needle.data hay.data

/-- Python's `'..' in file_name`: substring containment of "..". -/
def containsDotDot (s : String) : Bool := containsSubstr s ".."

/-- Python's `s.startswith(pre)`. -/
def startsWithStr (s pre : String) : Bool := pre.data.isPrefixOf s.data

/-- `os.path.join(a, b)` for the shapes used here: `b` absolute wins, empty `b`
yields a trailing slash, otherwise the two are joined with "/". -/
def pjoin (a b : String) : String :=
  if startsWithStr b "/" then b else if b = "" then a ++ "/" else a ++ "/" ++ b

/-- Normalizes path segments: drops empty and "." segments, lets ".." pop
(at the root it is ignored, as for absolute paths in `os.path.normpath`). -/
def normStack (acc : List String) : List String → List String
  | [] => acc.reverse
  | "" :: rest => normStack acc rest
  | "." :: rest => normStack acc rest
  | ".." :: rest => normStack (acc.drop 1) rest
  | s :: rest => normStack (s :: acc) rest

/-- `os.path.abspath` for already-absolute inputs: pure normalization. -/
def abspath (p : String) : String :=
  "/" ++ String.intercalate "/" (normStack [] (splitSlash p))

/-- `os.path.dirname`. -/
def dirname (p : String) : String := String.intercalate "/" (splitSlash p).dropLast

/-- `os.path.basename`. -/
def basename (p : String) : String := (splitSlash p).getLastD ""

/-! ### Filesystem state model -/

/-- A snapshot of the parts of the filesystem the materializer touches:
the set of directories and the files (absolute path, content). -/
structure FS where
  dirs : List String
  files : List (String × String)
deriving DecidableEq

/-- `os.path.isdir`. -/
def FS.isdirB (fs : FS) (p : String) : Bool := decide (p ∈ fs.dirs)

/-- Whether a regular file exists at the path. -/
def FS.isfileB (fs : FS) (p : String) : Bool := decide (p ∈ fs.files.map Prod.fst)

/-- `os.path.exists`. -/
def FS.existsB (fs : FS) (p : String) : Bool := fs.isdirB p || fs.isfileB p

/-- The non-empty segments of an absolute path. -/
def splitAbs (p : String) : List String := (splitSlash p).filter (fun s => s ≠ "")

/-- Every ancestor prefix of an absolute path, innermost last. -/
def prefixPaths (p : String) : List String :=
  (List.range (splitAbs p).length).map fun i =>
    "/" ++ String.intercalate "/" ((splitAbs p).take (i + 1))

/-- `os.makedirs(p, exist_ok=True)`: creates the directory and its ancestors. -/
def FS.makedirs (fs : FS) (p : String) : FS :=
  ⟨(prefixPaths p).foldl (fun acc d => if acc.contains d then acc else acc ++ [d]) fs.dirs,
   fs.files⟩

/-- `open(p, 'w').write(c)`: creates or overwrites the file. -/
def FS.writeFile (fs : FS) (p c : String) : FS :=
  ⟨fs.dirs, (p, c) :: fs.files.filter fun kv => kv.1 ≠ p⟩

/-- `os.remove(p)`. -/
def FS.removeFile (fs : FS) (p : String) : FS :=
  ⟨fs.dirs, fs.files.filter fun kv => kv.1 ≠ p⟩

/-- Whether `p` equals `root` or lies strictly below it. -/
def isUnder (root p : String) : Bool := p == root || startsWithStr p (root ++ "/")

/-- `shutil.rmtree(p)`: removes the directory and everything below it. -/
def FS.rmtree (fs : FS) (p : String) : FS :=
  ⟨fs.dirs.filter fun d => !(isUnder p d), fs.files.filter fun kv => !(isUnder p kv.1)⟩

/-! ### `DockerManager._save_files` and `DockerManager.create_container`
(`src/docker_manager.py`) -/

/-- Python's `str.strip()`: removes leading and trailing whitespace. -/
def pyStrip (s : String) : String :=
  String.mk (((s.data.dropWhile Char.isWhitespace).reverse.dropWhile Char.isWhitespace).reverse)

/-- The errors `_save_files` raises. -/
inductive SaveErr
  | emptyName (orig : String)
  | unsafePath (orig : String)
  | outside (name : String)
  | dirCollision (name : String)
  | noPackageJson
deriving DecidableEq

/-- The per-file loop of `_save_files`: validates each name, creates parent
directories, writes the content; stops at the first error, which leaves the
files already written in place (the exception propagates). -/
def save_files_loop (projDir : String) :
    FS → Bool → List FileEntry → FS × Bool × Option SaveErr
  | fs, hasPkg, [] => (fs, hasPkg, none)
  | fs, hasPkg, f :: rest =>
    if f.name = "" ∨ pyStrip f.name = "" then (fs, hasPkg, some (.emptyName f.name))
    else
      let fn := lstripSlash f.name
      if containsDotDot fn then (fs, hasPkg, some (.unsafePath f.name))
      else
        let fpath := pjoin projDir fn
        let fdir := dirname fpath
        if !(startsWithStr (abspath fpath) (abspath projDir)) then
          (fs, hasPkg, some (.outside fn))
        else if fs.existsB fpath && fs.isdirB fpath then
          (fs, hasPkg, some (.dirCollision fn))
        else
          let hasPkg2 := hasPkg || fn == "package.json"
          let fs1 := if fdir ≠ "" then fs.makedirs fdir else fs
          let fs2 := fs1.writeFile fpath (prepare_file_content f.content)
          save_files_loop projDir fs2 hasPkg2 rest

/-- `_save_files`: runs the loop, then requires that some file was named
exactly "package.json". -/
def save_files (projDir : String) (fs : FS) (files : List FileEntry) :
    FS × Option SaveErr :=
  match save_files_loop projDir fs false files with
  | (fs2, _, some e) => (fs2, some e)
  | (fs2, hasPkg, none) => if hasPkg then (fs2, none) else (fs2, some .noPackageJson)

/-- The generated Dockerfile (`_create_dockerfile`): two-stage build, verified
`dist` output, nginx static serving on port 8000. -/
def dockerfileText : String :=
  "FROM node:20-alpine AS builder\n\nWORKDIR /app\n\n# Копируем package.json и package-lock.json (если есть) и устанавливаем зависимости\nCOPY package*.json ./\nRUN npm install\n\n# Копируем остальные файлы\nCOPY . .\n\n# Собираем проект\nRUN npm run build\n\n# Проверяем что сборка прошла успешно\nRUN test -d dist || (echo \"ERROR: dist directory not found after build\" && exit 1)\nRUN ls -la dist/ || echo \"Cannot list dist directory\"\n\n# Production образ - используем nginx для отдачи статики\nFROM nginx:alpine\n\n# Копируем собранные статические файлы\nCOPY --from=builder /app/dist /usr/share/nginx/html\n\n# Создаем конфигурацию nginx\nRUN echo 'server \x7b \\\n    listen 8000; \\\n    server_name _; \\\n    root /usr/share/nginx/html; \\\n    index index.html; \\\n    \\\n    # Включаем gzip \\\n    gzip on; \\\n    gzip_vary on; \\\n    gzip_min_length 1024; \\\n    gzip_types text/plain text/css text/xml text/javascript application/javascript application/xml+rss application/json; \\\n    \\\n    # Отдача статических файлов с правильными MIME типами \\\n    location ~* \\.(js|css|png|jpg|jpeg|gif|ico|svg|woff|woff2|ttf|eot|webp)$ \x7b \\\n        expires 1y; \\\n        add_header Cache-Control \"public, immutable\"; \\\n        access_log off; \\\n        try_files $uri =404; \\\n    \x7d \\\n    \\\n    # SPA routing - все запросы на index.html \\\n    location / \x7b \\\n        try_files $uri $uri/ /index.html; \\\n    \x7d \\\n    \\\n    # Логирование для отладки \\\n    access_log /var/log/nginx/access.log; \\\n    error_log /var/log/nginx/error.log; \\\n\x7d' > /etc/nginx/conf.d/default.conf\n\nEXPOSE 8000\n\nCMD [\"nginx\", \"-g\", \"daemon off;\"]\n"

/-- The generated `.dockerignore` (`_create_dockerignore`). -/
def dockerignoreText : String :=
  "node_modules\nnpm-debug.log\n.env\n.git\n.gitignore\n*.md\n.DS_Store\n# НЕ исключаем .astro и dist - они нужны для builder stage\n"

/-- The errors `create_container` raises before or around `_save_files`. -/
inductive CCErr
  | emptyHash
  | badWorkDir (w : String)
  | workDirNotDir (w : String)
  | badProjectDir (p : String)
  | save (e : SaveErr)
  | dockerfileDir (p : String)
deriving DecidableEq

/-- The `try` block of `create_container`: saves the files, writes the
Dockerfile and .dockerignore, builds the image (`_build_image` is a no-op
`pass`); on any failure the `except` handler removes the whole project
directory (whether it pre-existed or not) before re-raising. -/
def create_container_try (projDir page_hash : String) (files : List FileEntry)
    (fs2 : FS) : Except CCErr String × FS :=
  match save_files projDir fs2 files with
  | (fs3, some e) =>
    let fs4 := if fs3.existsB projDir then fs3.rmtree projDir else fs3
    (.error (.save e), fs4)
  | (fs3, none) =>
    if !(fs3.isdirB projDir) then
      let fs4 := if fs3.existsB projDir then fs3.rmtree projDir else fs3
      (.error (.dockerfileDir projDir), fs4)
    else
      let fs4 := fs3.writeFile (pjoin projDir "Dockerfile") dockerfileText
      let fs5 := fs4.writeFile (pjoin projDir ".dockerignore") dockerignoreText
      (.ok ("deploy-" ++ page_hash), fs5)

/-- `create_container`: validates inputs, reuses or creates the project
directory, then runs the `try` block above. -/
def create_container (fs : FS) (work_dir page_hash : String)
    (files : List FileEntry) : Except CCErr String × FS :=
  if page_hash = "" then (.error .emptyHash, fs)
  else if work_dir = "" ∨ work_dir = "containers" then (.error (.badWorkDir work_dir), fs)
  else
    let projDir := pjoin work_dir page_hash
    if projDir = "" ∨ projDir = work_dir ∨ projDir = "containers" then
      (.error (.badProjectDir projDir), fs)
    else if fs.existsB work_dir && !(fs.isdirB work_dir) then
      (.error (.workDirNotDir work_dir), fs)
    else
      let fs1 := if fs.existsB work_dir && fs.existsB projDir && !(fs.isdirB projDir)
        then fs.removeFile projDir else fs
      let fs2 :=
        if fs1.existsB projDir then
          if !(fs1.isdirB projDir) then (fs1.removeFile projDir).makedirs projDir else fs1
        else fs1.makedirs projDir
      create_container_try projDir page_hash files fs2

/-! ### Lemmas about the materializer loop -/

theorem writeFile_mem (fs : FS) (p c q : String) (h : q ∈ fs.files.map Prod.fst) :
    q ∈ (fs.writeFile p c).files.map Prod.fst := by
  by_cases hq : q = p
  · subst hq
    simp [FS.writeFile]
  · simp only [FS.writeFile, List.map_cons, List.mem_cons]
    right
    simp only [List.mem_map] at h ⊢
    obtain ⟨kv, hkv, rfl⟩ := h
    exact ⟨kv, List.mem_filter.mpr ⟨hkv, by simpa using hq⟩, rfl⟩

theorem mem_foldl_insert (l : List String) :
    ∀ (acc : List String) (d : String), d ∈ acc →
      d ∈ l.foldl (fun acc x => if acc.contains x then acc else acc ++ [x]) acc := by
  induction l with
  | nil => intro acc d h; simpa using h
  | cons x l ih =>
    intro acc d h
    simp only [List.foldl_cons]
    by_cases hx : acc.contains x
    · rw [if_pos hx]; exact ih acc d h
    · rw [if_neg hx]; exact ih _ d (List.mem_append_left _ h)

theorem makedirs_dirs_mem (fs : FS) (p d : String) (h : d ∈ fs.dirs) :
    d ∈ (fs.makedirs p).dirs :=
  mem_foldl_insert _ _ _ h

theorem save_files_loop_mono (projDir : String) :
    ∀ (files : List FileEntry) (fs : FS) (hp : Bool),
      (∀ q, q ∈ fs.files.map Prod.fst →
        q ∈ ((save_files_loop projDir fs hp files).1).files.map Prod.fst) ∧
      (∀ d, d ∈ fs.dirs → d ∈ ((save_files_loop projDir fs hp files).1).dirs) := by
  intro files
  induction files with
  | nil => intro fs hp; simp [save_files_loop]
  | cons f rest ih =>
    intro fs hp
    simp only [save_files_loop]
    split_ifs with h1 h2 h3 h4 h5
    · simp
    · simp
    · simp
    · simp
    · refine ⟨fun q hq => (ih _ _).1 q ?_, fun d hd => (ih _ _).2 d ?_⟩
      · exact writeFile_mem _ _ _ _ (by simpa [FS.makedirs] using hq)
      · show d ∈ (FS.writeFile _ _ _).dirs
        simpa [FS.writeFile] using makedirs_dirs_mem fs _ d hd
    · refine ⟨fun q hq => (ih _ _).1 q (writeFile_mem _ _ _ _ hq),
        fun d hd => (ih _ _).2 d ?_⟩
      simpa [FS.writeFile] using hd

theorem save_files_loop_append (projDir : String) :
    ∀ (pre rest : List FileEntry) (fs : FS) (hp : Bool) (fs1 : FS) (hp1 : Bool),
      save_files_loop projDir fs hp pre = (fs1, hp1, none) →
      save_files_loop projDir fs hp (pre ++ rest) = save_files_loop projDir fs1 hp1 rest := by
  intro pre
  induction pre with
  | nil =>
    intro rest fs hp fs1 hp1 h
    simp only [save_files_loop] at h
    obtain ⟨rfl, rfl, -⟩ : fs = fs1 ∧ hp = hp1 ∧ True := by
      injection h with h1 h2
      injection h2 with h2 h3
      exact ⟨h1, h2, trivial⟩
    simp
  | cons f pre ih =>
    intro rest fs hp fs1 hp1 h
    simp only [save_files_loop, List.cons_append] at h ⊢
    split_ifs at h ⊢ with h1 h2 h3 h4 h5
    · simp at h
    · simp at h
    · simp at h
    · simp at h
    · exact ih rest _ _ _ _ h
    · exact ih rest _ _ _ _ h

theorem save_files_loop_no_pkg (projDir : String) :
    ∀ (files : List FileEntry) (fs : FS) (hp : Bool),
      (∀ f ∈ files, lstripSlash f.name ≠ "package.json") →
      (∃ e, (save_files_loop projDir fs hp files).2.2 = some e) ∨
        (save_files_loop projDir fs hp files).2.1 = hp := by
  intro files
  induction files with
  | nil => intro fs hp _; right; simp [save_files_loop]
  | cons f rest ih =>
    intro fs hp h
    have hf := h f (List.mem_cons_self f rest)
    have hrest : ∀ g ∈ rest, lstripSlash g.name ≠ "package.json" :=
      fun g hg => h g (List.mem_cons_of_mem f hg)
    simp only [save_files_loop]
    split_ifs with h1 h2 h3 h4 h5
    · exact Or.inl ⟨_, rfl⟩
    · exact Or.inl ⟨_, rfl⟩
    · exact Or.inl ⟨_, rfl⟩
    · exact Or.inl ⟨_, rfl⟩
    · have hbeq : (lstripSlash f.name == "package.json") = false :=
        beq_eq_false_iff_ne.mpr hf
      rw [hbeq]
      simpa using ih _ (hp || false) hrest
    · have hbeq : (lstripSlash f.name == "package.json") = false :=
        beq_eq_false_iff_ne.mpr hf
      rw [hbeq]
      simpa using ih _ (hp || false) hrest

theorem save_files_no_pkg (projDir : String) (fs : FS) (files : List FileEntry)
    (h : ∀ f ∈ files, lstripSlash f.name ≠ "package.json") :
    ∃ e, (save_files projDir fs files).2 = some e := by
  unfold save_files
  rcases hl : save_files_loop projDir fs false files with ⟨fs2, hp2, err⟩
  rcases err with - | e
  · have := save_files_loop_no_pkg projDir files fs false h
    rw [hl] at this
    rcases this with ⟨e, he⟩ | hhp
    · simp at he
    · simp only at hhp
      subst hhp
      simp
  · exact ⟨e, rfl⟩

theorem rmtree_not_exists (fs : FS) (p : String) : (fs.rmtree p).existsB p = false := by
  have hup : isUnder p p = true := by simp [isUnder]
  simp only [FS.existsB, FS.rmtree, FS.isdirB, FS.isfileB, Bool.or_eq_false_iff,
    decide_eq_false_iff_not]
  constructor
  · intro h
    have := (List.mem_filter.mp h).2
    simp [hup] at this
  · intro h
    simp only [List.mem_map] at h
    obtain ⟨kv, hkv, heq⟩ := h
    have h2 := (List.mem_filter.mp hkv).2
    rw [heq] at h2
    simp [hup] at h2

theorem save_files_fst (projDir : String) (fs : FS) (files : List FileEntry) :
    (save_files projDir fs files).1 = (save_files_loop projDir fs false files).1 := by
  unfold save_files
  rcases save_files_loop projDir fs false files with ⟨fs2, hp2, err⟩
  rcases err with - | e
  · cases hp2 <;> rfl
  · rfl

theorem save_files_none_loop (projDir : String) (fs : FS) (files : List FileEntry)
    (h : (save_files projDir fs files).2 = none) :
    (save_files_loop projDir fs false files).2.2 = none := by
  unfold save_files at h
  rcases hl : save_files_loop projDir fs false files with ⟨fs2, hp2, err⟩
  rw [hl] at h
  rcases err with - | e
  · rfl
  · simp at h

theorem save_files_loop_writes (projDir : String) :
    ∀ (files : List FileEntry) (fs : FS) (hp : Bool),
      (save_files_loop projDir fs hp files).2.2 = none →
      ∀ f ∈ files, pjoin projDir (lstripSlash f.name) ∈
        ((save_files_loop projDir fs hp files).1).files.map Prod.fst := by
  intro files
  induction files with
  | nil => intro fs hp _ f hf; simp at hf
  | cons g rest ih =>
    intro fs hp hnone f hf
    simp only [save_files_loop] at hnone ⊢
    split_ifs at hnone ⊢ with h1 h2 h3 h4 h5
    · rcases List.mem_cons.mp hf with heq | hfr
      · subst heq
        refine (save_files_loop_mono projDir rest _ _).1 _ ?_
        simp [FS.writeFile, FS.makedirs]
      · exact ih _ _ hnone f hfr
    · rcases List.mem_cons.mp hf with heq | hfr
      · subst heq
        refine (save_files_loop_mono projDir rest _ _).1 _ ?_
        simp [FS.writeFile]
      · exact ih _ _ hnone f hfr

theorem save_files_loop_unsafe_inv (projDir : String) :
    ∀ (files : List FileEntry) (fs : FS) (hp : Bool) (fs2 : FS) (hp2 : Bool) (orig : String),
      save_files_loop projDir fs hp files = (fs2, hp2, some (.unsafePath orig)) →
      ∃ f ∈ files, f.name = orig ∧ containsDotDot (lstripSlash f.name) = true := by
  intro files
  induction files with
  | nil => intro fs hp fs2 hp2 orig h; simp [save_files_loop] at h
  | cons f rest ih =>
    intro fs hp fs2 hp2 orig h
    simp only [save_files_loop] at h
    split_ifs at h with h1 h2 h3 h4 h5
    · simp at h
    · simp only [Prod.mk.injEq, Option.some.injEq, SaveErr.unsafePath.injEq] at h
      exact ⟨f, List.mem_cons_self f rest, h.2.2, h2⟩
    · simp at h
    · simp at h
    · obtain ⟨g, hg, hgo⟩ := ih _ _ _ _ _ h
      exact ⟨g, List.mem_cons_of_mem f hg, hgo⟩
    · obtain ⟨g, hg, hgo⟩ := ih _ _ _ _ _ h
      exact ⟨g, List.mem_cons_of_mem f hg, hgo⟩

theorem save_files_unsafe_inv (projDir : String) (fs : FS) (files : List FileEntry)
    (fs2 : FS) (orig : String)
    (h : save_files projDir fs files = (fs2, some (.unsafePath orig))) :
    ∃ f ∈ files, f.name = orig ∧ containsDotDot (lstripSlash f.name) = true := by
  unfold save_files at h
  rcases hl : save_files_loop projDir fs false files with ⟨fs3, hp3, err⟩
  rw [hl] at h
  rcases err with - | e
  · cases hp3 <;> simp at h
  · simp only [Prod.mk.injEq, Option.some.injEq] at h
    rw [h.2] at hl
    exact save_files_loop_unsafe_inv projDir files fs false fs3 hp3 orig hl

/-! ### Claims C2, C5, C6 -/

instance {ε α : Type} [DecidableEq ε] [DecidableEq α] : DecidableEq (Except ε α) :=
  fun a b =>
    match a, b with
    | .ok x, .ok y => decidable_of_iff (x = y) (by simp)
    | .error x, .error y => decidable_of_iff (x = y) (by simp)
    | .ok _, .error _ => isFalse fun h => Except.noConfusion h
    | .error _, .ok _ => isFalse fun h => Except.noConfusion h

theorem create_container_try_err (projDir page_hash : String) (files : List FileEntry)
    (fs2 : FS) (hnm : ∀ f ∈ files, lstripSlash f.name ≠ "package.json") :
    (∃ e, (create_container_try projDir page_hash files fs2).1 = .error (.save e)) ∧
      ((create_container_try projDir page_hash files fs2).2).existsB projDir = false := by
  obtain ⟨e, he⟩ := save_files_no_pkg projDir fs2 files hnm
  unfold create_container_try
  rcases hsf : save_files projDir fs2 files with ⟨fs3, err⟩
  rw [hsf] at he
  simp only at he
  subst he
  dsimp only
  refine ⟨⟨e, rfl⟩, ?_⟩
  split_ifs with hex
  · exact rmtree_not_exists fs3 projDir
  · simpa using hex

/-- Claim C2 (amended): for every file set with no entry named exactly
"package.json" (after stripping leading slashes), `create_container` fails
(with the missing-manifest error when no per-file validation fails first), and
on this failure the project directory is removed in every case — both when it
was freshly created for this call and when it already existed and was reused. -/
theorem create_container_no_manifest (fs : FS) (work_dir page_hash : String)
    (files : List FileEntry)
    (hh : page_hash ≠ "")
    (hw1 : work_dir ≠ "") (hw2 : work_dir ≠ "containers")
    (hp1 : pjoin work_dir page_hash ≠ "")
    (hp2 : pjoin work_dir page_hash ≠ work_dir)
    (hp3 : pjoin work_dir page_hash ≠ "containers")
    (hwd : (fs.existsB work_dir && !(fs.isdirB work_dir)) = false)
    (hnm : ∀ f ∈ files, lstripSlash f.name ≠ "package.json") :
    (∃ e, (create_container fs work_dir page_hash files).1 = .error (.save e)) ∧
      ((create_container fs work_dir page_hash files).2).existsB
        (pjoin work_dir page_hash) = false := by
  simp only [create_container, hh, hw1, hw2, hp1, hp2, hp3, hwd, or_self, or_false,
    false_or, if_false, Bool.false_eq_true, ite_false]
  exact create_container_try_err _ _ _ _ hnm

/-- Witness for C2: a fresh deploy with one file and no manifest fails and
leaves no project directory behind. -/
theorem create_container_no_manifest_witness :
    ("h" : String) ≠ "" ∧
      (∀ f ∈ ([⟨"a.txt", .text "x"⟩] : List FileEntry),
        lstripSlash f.name ≠ "package.json") ∧
      (∃ e, (create_container ⟨["/w"], []⟩ "/w" "h" [⟨"a.txt", .text "x"⟩]).1 =
        .error (.save e)) ∧
      ((create_container ⟨["/w"], []⟩ "/w" "h" [⟨"a.txt", .text "x"⟩]).2).existsB
        (pjoin "/w" "h") = false :=
  ⟨by decide, by decide,
    (create_container_no_manifest ⟨["/w"], []⟩ "/w" "h" [⟨"a.txt", .text "x"⟩]
      (by decide) (by decide) (by decide) (by decide) (by decide) (by decide)
      (by decide) (by decide)).1,
    (create_container_no_manifest ⟨["/w"], []⟩ "/w" "h" [⟨"a.txt", .text "x"⟩]
      (by decide) (by decide) (by decide) (by decide) (by decide) (by decide)
      (by decide) (by decide)).2⟩

/-- Claim C2, counterexample to "never removed when reused": a pre-existing
(reused) project directory containing a file is removed entirely when the
manifest is missing. -/
theorem create_container_reused_cleanup_cex :
    ((⟨["/w", "/w/h"], [("/w/h/old.txt", "y")]⟩ : FS).isdirB "/w/h" = true) ∧
      (create_container ⟨["/w", "/w/h"], [("/w/h/old.txt", "y")]⟩ "/w" "h"
          [⟨"a.txt", .text "x"⟩]).1 = .error (.save .noPackageJson) ∧
      ((create_container ⟨["/w", "/w/h"], [("/w/h/old.txt", "y")]⟩ "/w" "h"
          [⟨"a.txt", .text "x"⟩]).2).existsB "/w/h" = false := by
  decide

theorem create_container_try_ok (projDir page_hash : String) (files : List FileEntry)
    (fs2 : FS) (hsave : (save_files projDir fs2 files).2 = none)
    (hdir : ((save_files projDir fs2 files).1).isdirB projDir = true) :
    (create_container_try projDir page_hash files fs2).1 = .ok ("deploy-" ++ page_hash) ∧
      (∀ f ∈ files, pjoin projDir (lstripSlash f.name) ∈
        ((create_container_try projDir page_hash files fs2).2).files.map Prod.fst) ∧
      pjoin projDir "Dockerfile" ∈
        ((create_container_try projDir page_hash files fs2).2).files.map Prod.fst ∧
      pjoin projDir ".dockerignore" ∈
        ((create_container_try projDir page_hash files fs2).2).files.map Prod.fst := by
  have hloopnone := save_files_none_loop projDir fs2 files hsave
  have hwrites := save_files_loop_writes projDir files fs2 false hloopnone
  have hfst := save_files_fst projDir fs2 files
  unfold create_container_try
  rcases hsf : save_files projDir fs2 files with ⟨fs3, err⟩
  rw [hsf] at hsave hdir hfst
  simp only at hsave hdir hfst
  subst hsave
  dsimp only
  rw [if_neg (by simp [hdir])]
  refine ⟨rfl, ?_, ?_, ?_⟩
  · intro f hf
    refine writeFile_mem _ _ _ _ (writeFile_mem _ _ _ _ ?_)
    rw [hfst]
    exact hwrites f hf
  · exact writeFile_mem _ _ _ _ (by simp [FS.writeFile])
  · simp [FS.writeFile]

/-- Claim C5 (amended): when the project directory already exists for the
fingerprint, only directory creation is skipped; the write pass still runs on
every call — each file entry is written, and the build-recipe and
build-exclusion files are written — and the call succeeds when the files pass
validation and include the manifest. -/
theorem create_container_reuse_still_writes (fs : FS) (work_dir page_hash : String)
    (files : List FileEntry)
    (hh : page_hash ≠ "")
    (hw1 : work_dir ≠ "") (hw2 : work_dir ≠ "containers")
    (hp1 : pjoin work_dir page_hash ≠ "")
    (hp2 : pjoin work_dir page_hash ≠ work_dir)
    (hp3 : pjoin work_dir page_hash ≠ "containers")
    (hwd : (fs.existsB work_dir && !(fs.isdirB work_dir)) = false)
    (hreuse : fs.isdirB (pjoin work_dir page_hash) = true)
    (hsave : (save_files (pjoin work_dir page_hash) fs files).2 = none) :
    (create_container fs work_dir page_hash files).1 = .ok ("deploy-" ++ page_hash) ∧
      (∀ f ∈ files, pjoin (pjoin work_dir page_hash) (lstripSlash f.name) ∈
        ((create_container fs work_dir page_hash files).2).files.map Prod.fst) ∧
      pjoin (pjoin work_dir page_hash) "Dockerfile" ∈
        ((create_container fs work_dir page_hash files).2).files.map Prod.fst ∧
      pjoin (pjoin work_dir page_hash) ".dockerignore" ∈
        ((create_container fs work_dir page_hash files).2).files.map Prod.fst := by
  have hdir : ((save_files (pjoin work_dir page_hash) fs files).1).isdirB
      (pjoin work_dir page_hash) = true := by
    rw [save_files_fst]
    have := (save_files_loop_mono (pjoin work_dir page_hash) files fs false).2
      (pjoin work_dir page_hash) (by simpa [FS.isdirB] using hreuse)
    simpa [FS.isdirB] using this
  have hex : fs.existsB (pjoin work_dir page_hash) = true := by
    simp [FS.existsB, hreuse]
  simp only [create_container, hh, hw1, hw2, hp1, hp2, hp3, hwd, hreuse, hex,
    or_self, or_false, false_or, if_false, Bool.false_eq_true, ite_false,
    Bool.not_true, Bool.and_false, Bool.true_and, Bool.and_true, if_true, ite_true]
  exact create_container_try_ok _ _ _ _ hsave hdir

/-- Witness for C5: with the directory already present, a one-file project with
a manifest succeeds and both the file and the Dockerfile are written. -/
theorem create_container_reuse_still_writes_witness :
    ((⟨["/w", "/w/h"], []⟩ : FS).isdirB (pjoin "/w" "h") = true) ∧
      ((save_files (pjoin "/w" "h") ⟨["/w", "/w/h"], []⟩
        [⟨"package.json", .text "x"⟩]).2 = none) ∧
      (create_container ⟨["/w", "/w/h"], []⟩ "/w" "h"
        [⟨"package.json", .text "x"⟩]).1 = .ok ("deploy-" ++ "h") :=
  ⟨by decide, by decide,
    (create_container_reuse_still_writes ⟨["/w", "/w/h"], []⟩ "/w" "h"
      [⟨"package.json", .text "x"⟩] (by decide) (by decide) (by decide) (by decide)
      (by decide) (by decide) (by decide) (by decide) (by decide)).1⟩

/-- Claim C5, counterexample to "the write pass is skipped entirely": with the
project directory already existing and an initially empty file table, the
deploy writes the file entry and the Dockerfile anyway. -/
theorem create_container_reuse_writes_cex :
    ((⟨["/w", "/w/h"], []⟩ : FS).isdirB "/w/h" = true) ∧
      (⟨["/w", "/w/h"], []⟩ : FS).files = [] ∧
      (create_container ⟨["/w", "/w/h"], []⟩ "/w" "h"
          [⟨"package.json", .text "x"⟩]).1 = .ok "deploy-h" ∧
      ("/w/h/package.json", "x") ∈
        (create_container ⟨["/w", "/w/h"], []⟩ "/w" "h"
          [⟨"package.json", .text "x"⟩]).2.files ∧
      "/w/h/Dockerfile" ∈
        (create_container ⟨["/w", "/w/h"], []⟩ "/w" "h"
          [⟨"package.json", .text "x"⟩]).2.files.map Prod.fst ∧
      "/w/h/.dockerignore" ∈
        (create_container ⟨["/w", "/w/h"], []⟩ "/w" "h"
          [⟨"package.json", .text "x"⟩]).2.files.map Prod.fst := by
  decide

/-- Modelled from the spec: a file name "contains a `..` segment" when ".."
occurs as a whole path segment. Compared against the code's substring test. -/
def specDotDotSegment (s : String) : Bool := (splitSlash s).contains ".."

/-- Claim C6 (amended): the unsafe-path rejection is a substring test, not a
segment test. Any file whose stripped name contains ".." anywhere is rejected
with the unsafe-path error before that file is written (the state is exactly
the one left by the preceding entries); conversely, an unsafe-path error only
arises from a file whose stripped name contains ".." as a substring. -/
theorem save_files_dotdot_check :
    (∀ (projDir : String) (fs : FS) (pre post : List FileEntry) (f : FileEntry)
        (fs1 : FS) (hp1 : Bool),
        save_files_loop projDir fs false pre = (fs1, hp1, none) →
        ¬(f.name = "" ∨ pyStrip f.name = "") →
        containsDotDot (lstripSlash f.name) = true →
        save_files projDir fs (pre ++ f :: post) = (fs1, some (.unsafePath f.name))) ∧
      ∀ (projDir : String) (fs : FS) (files : List FileEntry) (fs2 : FS) (orig : String),
        save_files projDir fs files = (fs2, some (.unsafePath orig)) →
        ∃ f ∈ files, f.name = orig ∧ containsDotDot (lstripSlash f.name) = true := by
  constructor
  · intro projDir fs pre post f fs1 hp1 hpre hne hdd
    unfold save_files
    rw [save_files_loop_append projDir pre (f :: post) fs false fs1 hp1 hpre]
    simp only [save_files_loop]
    rw [if_neg hne, if_pos hdd]
  · exact fun projDir fs files fs2 orig h => save_files_unsafe_inv projDir fs files fs2 orig h

/-- Witness for C6: a name starting with "../" is rejected with the unsafe-path
error and nothing is written. -/
theorem save_files_dotdot_check_witness :
    save_files_loop "/w/h" ⟨["/w", "/w/h"], []⟩ false [] = (⟨["/w", "/w/h"], []⟩, false, none) ∧
      ¬(("../x" : String) = "" ∨ pyStrip "../x" = "") ∧
      containsDotDot (lstripSlash "../x") = true ∧
      save_files "/w/h" ⟨["/w", "/w/h"], []⟩ [⟨"../x", .text "y"⟩] =
        (⟨["/w", "/w/h"], []⟩, some (.unsafePath "../x")) :=
  ⟨by decide, by decide, by decide,
    save_files_dotdot_check.1 "/w/h" ⟨["/w", "/w/h"], []⟩ [] [] ⟨"../x", .text "y"⟩
      ⟨["/w", "/w/h"], []⟩ false (by decide) (by decide) (by decide)⟩

/-- Claim C6, counterexample to "names without such segments ... are not
rejected": "a..b" has no ".." segment and resolves inside the project
directory, yet it is rejected with the unsafe-path error. -/
theorem save_files_dotdot_cex :
    specDotDotSegment (lstripSlash "a..b") = false ∧
      startsWithStr (abspath (pjoin "/w/h" (lstripSlash "a..b"))) (abspath "/w/h") = true ∧
      (save_files "/w/h" ⟨["/w", "/w/h"], []⟩ [⟨"a..b", .text "x"⟩]).2 =
        some (.unsafePath "a..b") := by
  decide

/-! ### Registry document and port lookup (`DeployManager._get_container_port_direct`,
`DeployManager._save_container_registry_direct`) -/

/-- A JSON scalar as read back from the registry document by `json.load`. -/
inductive JVal
  | num (n : Int)
  | str (s : String)
  | jbool (b : Bool)
  | jnull
deriving DecidableEq

/-- Python truthiness of a registry field value. -/
def pyTruthy : JVal → Bool
  | .num n => decide (n ≠ 0)
  | .str s => decide (s ≠ "")
  | .jbool b => b
  | .jnull => false

/-- Python `isinstance(x, int)`: holds for ints and for bools. -/
def pyIsInt : JVal → Bool
  | .num _ => true
  | .jbool _ => true
  | _ => false

/-- The integer Python would use where a port is expected. -/
def jvalInt : JVal → Int
  | .num n => n
  | .jbool b => if b then 1 else 0
  | _ => 0

/-- The parsed registry document: fingerprint → record of named fields. -/
abbrev Registry : Type := List (String × List (String × JVal))

/-- `registry[page_hash]` (as an optional lookup). -/
def lookupReg (reg : Registry) (h : String) : Option (List (String × JVal)) :=
  (List.find? (fun kv => kv.1 == h) reg).map (fun kv => kv.2)

/-- `record.get(key)`. -/
def lookupField (rec : List (String × JVal)) (k : String) : Option JVal :=
  (List.find? (fun kv => kv.1 == k) rec).map (fun kv => kv.2)

/-- `registry[page_hash] = rec`: replaces the entry in place or appends it. -/
def regAssign : Registry → String → List (String × JVal) → Registry
  | [], h, rec => [(h, rec)]
  | (k, v) :: rest, h, rec =>
    if k = h then (h, rec) :: rest else (k, v) :: regAssign rest h rec

/-- `_save_container_registry_direct`: reads the document (an unreadable or
missing file yields an empty dict), sets
`registry[page_hash] = {container_port, container_name}`, and writes it
back wholesale. No `image_name` field is stored. -/
def save_container_registry_direct (reg0 : Option Registry) (page_hash : String)
    (container_port : Int) (container_name : String) : Registry :=
  let registry := match reg0 with | some r => r | none => []
  regAssign registry page_hash
    [("container_port", .num container_port), ("container_name", .str container_name)]

/-- The ambient state `_get_container_port_direct` consults: the registry
document on disk (`none` when the file is absent or fails to parse), the
observable TCP listeners, and the ephemeral port the OS hands out for
`bind(('', 0))`. -/
structure PortEnv where
  registry : Option Registry
  portInUse : Int → Bool
  osPort : Int

/-- `_get_container_port_direct`: reuse the recorded port when the record
exists, the port is truthy and an int, and nothing listens on it; otherwise
return a fresh OS-assigned port. -/
def get_container_port_direct (env : PortEnv) (page_hash : String) : Int :=
  match env.registry with
  | some reg =>
    match lookupReg reg page_hash with
    | some rec =>
      match lookupField rec "container_port" with
      | some port =>
        if pyTruthy port && pyIsInt port then
          if !(env.portInUse (jvalInt port)) then jvalInt port
          else env.osPort
        else env.osPort
      | none => env.osPort
    | none => env.osPort
  | none => env.osPort

/-! ### Container lifecycle (`DeployManager.deploy_container` and the two
mode implementations) -/

/-- One external action performed through `subprocess`, `shutil` or `os`. -/
inductive Act
  | dockerInfo
  | dockerStop (name : String)
  | dockerRm (name : String)
  | dockerBuild (tag : String) (dir : String)
  | dockerPs (name : String)
  | dockerRun (name : String) (hostPort : Option Int) (image : String)
  | dockerPort (name : String)
  | rmTreeAct (p : String)
  | removeAct (p : String)
  | copyTree (src dst : String)
  | makedirsAct (p : String)
deriving DecidableEq

/-- The errors `deploy_container` and its two implementations raise. -/
inductive DeployErr
  | noMode
  | daemonDown
  | daemonDownLocal
  | srcMissing (p : String)
  | srcNotDir (p : String)
  | badBasename (p : String)
  | parentContainersDir (p : String)
  | copyFailed (src : String) (dst : String)
  | buildFailed (msg : String)
  | runFailed (msg : String)
deriving DecidableEq

/-- `error_msg = result.stderr or result.stdout or "Unknown error"`. -/
def firstMsg (a b : String) : String :=
  if a ≠ "" then a else if b ≠ "" then b else "Unknown error"

/-- Python's `s.endswith(suf)`. -/
def endsWithStr (s suf : String) : Bool := suf.data.isSuffixOf s.data

/-- The outcomes of the external docker/shutil commands a deploy issues
(return codes, captured output, copy success, the listener probe, and the
port `docker port` reports back). -/
structure DockerEnv where
  infoOk : Bool
  copyOk : Bool
  buildOk : Bool
  buildStderr : String
  buildStdout : String
  psOk : Bool
  psOut : String
  runOk : Bool
  runStderr : String
  runStdout : String
  portOk : Bool
  parsedPort : Option Int
  portInUseL : Int → Bool

/-- `_deploy_container_direct`: check the daemon, validate the source
directory, replace the remote copy, build, then stop/remove any existing
container, pick the port and run. The returned list records the external
actions in order. -/
def deploy_container_direct (denv : DockerEnv) (fs : FS) (penv : PortEnv)
    (container_id page_hash container_dir : String) : Except DeployErr Int × List Act :=
  let cd := abspath container_dir
  if !denv.infoOk then (.error .daemonDown, [.dockerInfo]) else
  let remote := "/opt/deploy/" ++ page_hash
  let cname := "deploy-" ++ page_hash
  if !(fs.existsB cd) then (.error (.srcMissing cd), [.dockerInfo]) else
  if !(fs.isdirB cd) then (.error (.srcNotDir cd), [.dockerInfo]) else
  if basename cd ≠ page_hash then (.error (.badBasename cd), [.dockerInfo]) else
  if endsWithStr cd "containers" && !(endsWithStr cd ("containers/" ++ page_hash)) then
    (.error (.parentContainersDir cd), [.dockerInfo]) else
  let acts0 := [Act.dockerInfo] ++
    (if fs.existsB remote then
      (if fs.isdirB remote then [Act.rmTreeAct remote] else [Act.removeAct remote])
     else [])
  let acts1 := acts0 ++
    (if cd ≠ abspath remote then [Act.copyTree cd remote] else [Act.makedirsAct remote])
  if cd ≠ abspath remote ∧ denv.copyOk = false then (.error (.copyFailed cd remote), acts1) else
  let acts2 := acts1 ++ [Act.dockerBuild container_id remote]
  if !denv.buildOk then
    (.error (.buildFailed (firstMsg denv.buildStderr denv.buildStdout)), acts2) else
  let containerExists := denv.psOk && containsSubstr denv.psOut cname
  let acts3 := acts2 ++ [Act.dockerPs cname] ++
    (if containerExists then [Act.dockerStop cname, Act.dockerRm cname] else [])
  let host_port := get_container_port_direct penv page_hash
  let acts4 := acts3 ++ [Act.dockerRun cname (some host_port) container_id]
  if !denv.runOk then
    (.error (.runFailed (firstMsg denv.runStderr denv.runStdout)), acts4) else
  (.ok host_port, acts4)

/-- `_deploy_container_local`: check the daemon, stop and remove the old
container unconditionally, then build; derive the host port from Python's
process-specific `hash(page_hash)` (supplied here as `pyHashAbs`, already
taken absolute), fall back to a dynamic port when occupied, run, and read the
real port back from `docker port` (the parsed value is supplied by the
environment as `parsedPort`). -/
def deploy_container_local (denv : DockerEnv)
    (container_id page_hash container_dir : String) (pyHashAbs : Nat) :
    Except DeployErr Int × List Act :=
  if !denv.infoOk then (.error .daemonDownLocal, [.dockerInfo]) else
  let cname := "deploy-" ++ page_hash
  let acts0 := [Act.dockerInfo, Act.dockerStop cname, Act.dockerRm cname]
  let acts1 := acts0 ++ [Act.dockerBuild container_id container_dir]
  if !denv.buildOk then
    (.error (.buildFailed (firstMsg denv.buildStderr denv.buildStdout)), acts1) else
  let host_port : Int := 9000 + (pyHashAbs % 999 : Nat)
  let mapping : Option Int := if denv.portInUseL host_port then none else some host_port
  let acts2 := acts1 ++ [Act.dockerRun cname mapping container_id]
  if !denv.runOk then
    (.error (.runFailed (firstMsg denv.runStderr denv.runStdout)), acts2) else
  let acts3 := acts2 ++ [Act.dockerPort cname]
  match (if denv.portOk then denv.parsedPort else none) with
  | some real => (.ok real, acts3)
  | none => (.ok host_port, acts3)

/-- `_is_running_on_server`: `RUN_ON_SERVER == "1"`, or the Docker socket
accepts a connection. -/
def is_running_on_server (runOnServer : Option String) (socketOk : Bool) : Bool :=
  if runOnServer = some "1" then true else socketOk

/-- `deploy_container`: `LOCAL_TEST == "1"` selects the local path first;
otherwise the direct path when the server check passes; otherwise an error
without performing any action. -/
def deploy_container (localTest runOnServer : Option String) (socketOk : Bool)
    (denv : DockerEnv) (fs : FS) (penv : PortEnv)
    (container_id page_hash container_dir : String) (pyHashAbs : Nat) :
    Except DeployErr Int × List Act :=
  if localTest = some "1" then
    deploy_container_local denv container_id page_hash container_dir pyHashAbs
  else if is_running_on_server runOnServer socketOk then
    deploy_container_direct denv fs penv container_id page_hash container_dir
  else (.error .noMode, [])

/-! ### Route publishing (`DeployManager._configure_nginx_direct`) -/

/-- The reload mechanisms of the cascade, in priority order. -/
inductive Mech
  | hup
  | dockerExec
  | systemctl
  | nginxReload
deriving DecidableEq

/-- One step `_configure_nginx_direct` performs. -/
inductive NAct
  | writeFragment (path : String) (content : String)
  | ensureInclude
  | nginxTest
  | attempt (m : Mech)
  | saveRegistry
deriving DecidableEq

/-- The ambient conditions of the reload cascade: whether a PID file with a
numeric PID was found, whether each mechanism's command succeeds, whether
`which systemctl` succeeds, and whether an nginx binary was located. -/
structure NginxEnv where
  pidFound : Bool
  hupOk : Bool
  dockerExecOk : Bool
  whichSystemctlOk : Bool
  systemctlOk : Bool
  nginxCmdFound : Bool
  nginxReloadOk : Bool
deriving DecidableEq

/-- Whether a mechanism is attempted at all when reached. -/
def mechAvail (env : NginxEnv) : Mech → Bool
  | .hup => env.pidFound
  | .dockerExec => true
  | .systemctl => env.whichSystemctlOk
  | .nginxReload => env.nginxCmdFound

/-- Whether a mechanism succeeds when attempted. -/
def mechOk (env : NginxEnv) : Mech → Bool
  | .hup => env.hupOk
  | .dockerExec => env.dockerExecOk
  | .systemctl => env.systemctlOk
  | .nginxReload => env.nginxReloadOk

/-- The priority order of the cascade. -/
def mechPriority : List Mech := [.hup, .dockerExec, .systemctl, .nginxReload]

/-- The reload cascade: variant 1 (HUP, if a PID was found), variant 2
(docker exec), variant 3 (systemctl, if `which systemctl` succeeds),
variant 4 (nginx -s reload, if an nginx binary was found); each guarded by
`if not reload_success`. Returns the attempts in order and the final flag. -/
def reloadCascade (env : NginxEnv) : List Mech × Bool :=
  let a1 : List Mech := if env.pidFound then [.hup] else []
  if env.pidFound && env.hupOk then (a1, true) else
  let a2 := a1 ++ [Mech.dockerExec]
  if env.dockerExecOk then (a2, true) else
  let a3 := a2 ++ (if env.whichSystemctlOk then [Mech.systemctl] else [])
  if env.whichSystemctlOk && env.systemctlOk then (a3, true) else
  let a4 := a3 ++ (if env.nginxCmdFound then [Mech.nginxReload] else [])
  if env.nginxCmdFound && env.nginxReloadOk then (a4, true) else (a4, false)

/-- The outcome of `_configure_nginx_direct`. -/
structure NginxResult where
  trace : List NAct
  attempts : List Mech
  reloadSuccess : Bool
  registry : Registry
  ret : Bool

/-- `_configure_nginx_direct`: writes the per-fingerprint route fragment,
ensures the include directive, optionally tests the config, runs the reload
cascade, saves the registry record, and returns True regardless of whether
any reload mechanism succeeded. -/
def configure_nginx_direct (env : NginxEnv) (reg0 : Option Registry)
    (page_hash : String) (container_port : Int) (nginx_location : String) :
    NginxResult :=
  let fragPath := "/etc/nginx/sites-available/deploy/" ++ page_hash ++ ".conf"
  let cas := reloadCascade env
  ⟨NAct.writeFragment fragPath nginx_location :: NAct.ensureInclude ::
      ((if env.nginxCmdFound then [NAct.nginxTest] else []) ++
        cas.1.map NAct.attempt ++ [NAct.saveRegistry]),
   cas.1, cas.2,
   save_container_registry_direct reg0 page_hash container_port ("deploy-" ++ page_hash),
   true⟩

/-! ### Claims C3, C4, C7, C8, C10 -/

theorem lookupReg_regAssign (reg : Registry) (h : String) (rec : List (String × JVal)) :
    lookupReg (regAssign reg h rec) h = some rec := by
  induction reg with
  | nil => simp [regAssign, lookupReg]
  | cons kv rest ih =>
    obtain ⟨k, v⟩ := kv
    by_cases hk : k = h
    · subst hk
      simp [regAssign, lookupReg]
    · simp only [regAssign, if_neg hk, lookupReg, List.find?]
      rw [show ((k, v).1 == h) = false from beq_eq_false_iff_ne.mpr hk]
      exact ih

/-- Claim C4 (amended): `_get_container_port_direct` returns the recorded port
whenever a record exists for the fingerprint, its recorded port is a *nonzero*
integer, and no listener accepts connections on it; otherwise (in particular
when the registry file is missing, or the recorded port is 0) it returns the
fresh OS-assigned ephemeral port. Consequently, looking the port up right
after a registry save returns the same port while it remains free. -/
theorem get_container_port_spec (env : PortEnv) (page_hash : String) :
    (∀ (reg : Registry) (rec : List (String × JVal)) (port : Int),
      env.registry = some reg →
      lookupReg reg page_hash = some rec →
      lookupField rec "container_port" = some (.num port) →
      port ≠ 0 → env.portInUse port = false →
      get_container_port_direct env page_hash = port) ∧
      (env.registry = none → get_container_port_direct env page_hash = env.osPort) ∧
      ∀ (reg0 : Option Registry) (port : Int) (cname : String)
        (inUse : Int → Bool) (os : Int),
        port ≠ 0 → inUse port = false →
        get_container_port_direct
          ⟨some (save_container_registry_direct reg0 page_hash port cname), inUse, os⟩
          page_hash = port := by
  refine ⟨?_, ?_, ?_⟩
  · intro reg rec port hreg hrec hfield hnz hfree
    unfold get_container_port_direct
    simp only [hreg, hrec, hfield]
    have ht : pyTruthy (.num port) = true := by simp [pyTruthy, hnz]
    simp [ht, pyIsInt, jvalInt, hfree]
  · intro h
    simp [get_container_port_direct, h]
  · intro reg0 port cname inUse os hnz hfree
    unfold get_container_port_direct
    simp only [save_container_registry_direct]
    rw [lookupReg_regAssign]
    have hfield : lookupField
        [("container_port", JVal.num port), ("container_name", JVal.str cname)]
        "container_port" = some (JVal.num port) := by
      simp [lookupField, List.find?]
    simp only [hfield]
    have ht : pyTruthy (.num port) = true := by simp [pyTruthy, hnz]
    simp [ht, pyIsInt, jvalInt, hfree]

/-- Witness for C4: a registry holding port 9123 for "h1", with no listener,
yields 9123 again. -/
theorem get_container_port_spec_witness :
    ((⟨some [("h1", [("container_port", JVal.num 9123)])], fun _ => false, 55555⟩ :
        PortEnv).registry = some [("h1", [("container_port", JVal.num 9123)])]) ∧
      lookupReg [("h1", [("container_port", JVal.num 9123)])] "h1" =
        some [("container_port", JVal.num 9123)] ∧
      lookupField [("container_port", JVal.num 9123)] "container_port" =
        some (JVal.num 9123) ∧
      (9123 : Int) ≠ 0 ∧
      get_container_port_direct
        ⟨some [("h1", [("container_port", JVal.num 9123)])], fun _ => false, 55555⟩
        "h1" = 9123 :=
  ⟨rfl, by decide, by decide, by decide,
    (get_container_port_spec
      ⟨some [("h1", [("container_port", JVal.num 9123)])], fun _ => false, 55555⟩
      "h1").1 [("h1", [("container_port", JVal.num 9123)])]
      [("container_port", JVal.num 9123)] 9123 rfl (by decide) (by decide)
      (by decide) rfl⟩

/-- Claim C4, counterexample: a recorded port 0 is an integer and free, yet
the lookup returns the fresh OS port — the guard `port and isinstance(port,
int)` requires truthiness, which excludes 0 — so "whenever ... its recorded
port is an integer" overstates the reuse condition. -/
theorem get_container_port_zero_cex :
    lookupReg [("h1", [("container_port", JVal.num 0)])] "h1" =
        some [("container_port", JVal.num 0)] ∧
      pyIsInt (JVal.num 0) = true ∧
      (fun _ : Int => false) 0 = false ∧
      get_container_port_direct
        ⟨some [("h1", [("container_port", JVal.num 0)])], fun _ => false, 54321⟩
        "h1" = 54321 ∧
      (54321 : Int) ≠ 0 :=
  ⟨by decide, rfl, rfl, rfl, by decide⟩

/-- Claim C7 (amended): after a successful direct-mode deploy, the registry
document maps the fingerprint to a record holding exactly the two fields
container_port and container_name (with container_name equal to "deploy-"
followed by the fingerprint); no image_name field is persisted. -/
theorem registry_record_after_publish (env : NginxEnv) (reg0 : Option Registry)
    (page_hash : String) (port : Int) (loc : String) :
    lookupReg ((configure_nginx_direct env reg0 page_hash port loc).registry) page_hash =
      some [("container_port", .num port),
        ("container_name", .str ("deploy-" ++ page_hash))] ∧
      lookupField [("container_port", JVal.num port),
        ("container_name", JVal.str ("deploy-" ++ page_hash))] "image_name" = none := by
  constructor
  · simp only [configure_nginx_direct, save_container_registry_direct]
    exact lookupReg_regAssign _ _ _
  · rfl

/-- Claim C7, counterexample: the record a deploy stores for its fingerprint
has no image_name field, contradicting the three-field registry value. -/
theorem registry_no_image_name_cex :
    lookupReg ((configure_nginx_direct ⟨false, false, false, false, false, false, false⟩
        (some []) "abc123def456" 9123 "loc").registry) "abc123def456" =
        some [("container_port", JVal.num 9123),
          ("container_name", JVal.str "deploy-abc123def456")] ∧
      lookupField [("container_port", JVal.num 9123),
        ("container_name", JVal.str "deploy-abc123def456")] "image_name" = none := by
  decide

/-- The prefix of a mechanism list up to and including the first success. -/
def takeUntilOk (ok : Mech → Bool) : List Mech → List Mech
  | [] => []
  | m :: rest => if ok m then [m] else m :: takeUntilOk ok rest

/-- Claim C8: the route fragment is written before any reload attempt; the
available mechanisms are attempted each at most once in priority order
(HUP, docker exec, systemctl, nginx -s reload), stopping at the first one
that succeeds; and the operation returns True even when every mechanism
fails — only the registry save follows. -/
theorem configure_nginx_route_publish (env : NginxEnv) (reg0 : Option Registry)
    (page_hash : String) (port : Int) (loc : String) :
    (configure_nginx_direct env reg0 page_hash port loc).ret = true ∧
      (configure_nginx_direct env reg0 page_hash port loc).attempts =
        takeUntilOk (mechOk env) (mechPriority.filter (mechAvail env)) ∧
      (configure_nginx_direct env reg0 page_hash port loc).reloadSuccess =
        (configure_nginx_direct env reg0 page_hash port loc).attempts.any (mechOk env) ∧
      (configure_nginx_direct env reg0 page_hash port loc).trace =
        NAct.writeFragment ("/etc/nginx/sites-available/deploy/" ++ page_hash ++ ".conf")
            loc ::
          NAct.ensureInclude ::
          ((if env.nginxCmdFound then [NAct.nginxTest] else []) ++
            (configure_nginx_direct env reg0 page_hash port loc).attempts.map NAct.attempt ++
            [NAct.saveRegistry]) := by
  obtain ⟨p, h1, d, w, s, n, r⟩ := env
  refine ⟨rfl, ?_, ?_, rfl⟩ <;>
    cases p <;> cases h1 <;> cases d <;> cases w <;> cases s <;> cases n <;> cases r <;> rfl

/-- Claim C3 (amended): in direct mode a build failure raises the
build-failure error carrying the captured build output and no stop or remove
of any container has been performed (replacement happens only after a
successful build). In local mode, however, the old container is stopped and
removed unconditionally *before* the build, so a build failure there has
already taken down the previous instance. -/
theorem build_failure_keeps_old_container :
    (∀ (denv : DockerEnv) (fs : FS) (penv : PortEnv) (cid hash cdir : String),
      denv.infoOk = true →
      fs.existsB (abspath cdir) = true →
      fs.isdirB (abspath cdir) = true →
      basename (abspath cdir) = hash →
      (endsWithStr (abspath cdir) "containers" &&
        !(endsWithStr (abspath cdir) ("containers/" ++ hash))) = false →
      denv.copyOk = true →
      denv.buildOk = false →
      (deploy_container_direct denv fs penv cid hash cdir).1 =
        .error (.buildFailed (firstMsg denv.buildStderr denv.buildStdout)) ∧
      ∀ nm, Act.dockerStop nm ∉ (deploy_container_direct denv fs penv cid hash cdir).2 ∧
        Act.dockerRm nm ∉ (deploy_container_direct denv fs penv cid hash cdir).2) ∧
      ∀ (denv : DockerEnv) (cid hash cdir : String) (ph : Nat),
        denv.infoOk = true → denv.buildOk = false →
        (deploy_container_local denv cid hash cdir ph).1 =
          .error (.buildFailed (firstMsg denv.buildStderr denv.buildStdout)) ∧
        (deploy_container_local denv cid hash cdir ph).2 =
          [Act.dockerInfo, Act.dockerStop ("deploy-" ++ hash),
            Act.dockerRm ("deploy-" ++ hash), Act.dockerBuild cid cdir] := by
  constructor
  · intro denv fs penv cid hash cdir hinfo hex hdir hbase hends hcopy hbuild
    refine ⟨?_, ?_⟩
    · simp [deploy_container_direct, hinfo, hex, hdir, hbase, hends, hcopy, hbuild]
    · intro nm
      constructor <;>
        · simp [deploy_container_direct, hinfo, hex, hdir, hbase, hends, hcopy, hbuild]
          try split_ifs <;> simp
  · intro denv cid hash cdir ph hinfo hbuild
    refine ⟨?_, ?_⟩ <;> simp [deploy_container_local, hinfo, hbuild]

/-- Witness for C3: a concrete environment whose build fails: direct mode
reports the failure without any stop or remove, local mode has already
stopped and removed the old container before the build. -/
theorem build_failure_keeps_old_container_witness :
    (deploy_container_direct
        ⟨true, true, false, "err", "", true, "", true, "", "", true, none, fun _ => false⟩
        ⟨["/opt", "/opt/deploy", "/opt/deploy/h"], []⟩ ⟨none, fun _ => false, 40000⟩
        "deploy-h" "h" "/opt/deploy/h").1 =
      .error (.buildFailed (firstMsg "err" "")) ∧
      Act.dockerStop "deploy-h" ∉
        (deploy_container_direct
          ⟨true, true, false, "err", "", true, "", true, "", "", true, none, fun _ => false⟩
          ⟨["/opt", "/opt/deploy", "/opt/deploy/h"], []⟩ ⟨none, fun _ => false, 40000⟩
          "deploy-h" "h" "/opt/deploy/h").2 ∧
      (deploy_container_local
        ⟨true, true, false, "err", "", true, "", true, "", "", true, none, fun _ => false⟩
        "deploy-h" "h" "/w/h" 5).2 =
        [Act.dockerInfo, Act.dockerStop ("deploy-" ++ "h"),
          Act.dockerRm ("deploy-" ++ "h"), Act.dockerBuild "deploy-h" "/w/h"] :=
  ⟨(build_failure_keeps_old_container.1
      ⟨true, true, false, "err", "", true, "", true, "", "", true, none, fun _ => false⟩
      ⟨["/opt", "/opt/deploy", "/opt/deploy/h"], []⟩ ⟨none, fun _ => false, 40000⟩
      "deploy-h" "h" "/opt/deploy/h" rfl (by decide) (by decide) (by decide) (by decide)
      rfl rfl).1,
    ((build_failure_keeps_old_container.1
      ⟨true, true, false, "err", "", true, "", true, "", "", true, none, fun _ => false⟩
      ⟨["/opt", "/opt/deploy", "/opt/deploy/h"], []⟩ ⟨none, fun _ => false, 40000⟩
      "deploy-h" "h" "/opt/deploy/h" rfl (by decide) (by decide) (by decide) (by decide)
      rfl rfl).2 "deploy-h").1,
    (build_failure_keeps_old_container.2
      ⟨true, true, false, "err", "", true, "", true, "", "", true, none, fun _ => false⟩
      "deploy-h" "h" "/w/h" 5 rfl rfl).2⟩

/-- Claim C3, counterexample to "in both operating modes": in local mode the
old container is stopped and removed before the failing build. -/
theorem build_failure_local_cex :
    (deploy_container_local
        ⟨true, true, false, "err", "", true, "", true, "", "", true, none, fun _ => false⟩
        "deploy-h" "h" "/w/h" 5).1 = .error (.buildFailed "err") ∧
      (deploy_container_local
        ⟨true, true, false, "err", "", true, "", true, "", "", true, none, fun _ => false⟩
        "deploy-h" "h" "/w/h" 5).2 =
        [Act.dockerInfo, Act.dockerStop "deploy-h", Act.dockerRm "deploy-h",
          Act.dockerBuild "deploy-h" "/w/h"] := by
  constructor <;> rfl

/-- Claim C10: LOCAL_TEST="1" takes strict precedence (the local path is
selected regardless of RUN_ON_SERVER), and when LOCAL_TEST is not "1",
RUN_ON_SERVER is not "1" and the runtime socket is unreachable,
deploy_container raises the no-mode error having performed no external
action: no build, no directory copy, no container start. -/
theorem deploy_mode_selection :
    (∀ (lt ros : Option String) (sock : Bool) (denv : DockerEnv) (fs : FS)
        (penv : PortEnv) (cid hash cdir : String) (ph : Nat),
      lt = some "1" →
      deploy_container lt ros sock denv fs penv cid hash cdir ph =
        deploy_container_local denv cid hash cdir ph) ∧
      ∀ (lt ros : Option String) (sock : Bool) (denv : DockerEnv) (fs : FS)
        (penv : PortEnv) (cid hash cdir : String) (ph : Nat),
        lt ≠ some "1" → ros ≠ some "1" → sock = false →
        deploy_container lt ros sock denv fs penv cid hash cdir ph =
          (.error .noMode, []) := by
  constructor
  · intro lt ros sock denv fs penv cid hash cdir ph hlt
    simp [deploy_container, hlt]
  · intro lt ros sock denv fs penv cid hash cdir ph h1 h2 h3
    simp [deploy_container, is_running_on_server, h1, h2, h3]

/-- Witness for C10: with LOCAL_TEST="1" and RUN_ON_SERVER="1" both set the
local path still wins; with neither set and the socket down, the result is
the no-mode error with an empty action list. -/
theorem deploy_mode_selection_witness :
    (some "1" : Option String) = some "1" ∧
      deploy_container (some "1") (some "1") true
          ⟨true, true, true, "", "", true, "", true, "", "", true, none, fun _ => false⟩
          ⟨[], []⟩ ⟨none, fun _ => false, 40000⟩ "deploy-h" "h" "/w/h" 5 =
        deploy_container_local
          ⟨true, true, true, "", "", true, "", true, "", "", true, none, fun _ => false⟩
          "deploy-h" "h" "/w/h" 5 ∧
      (none : Option String) ≠ some "1" ∧
      deploy_container none none false
          ⟨true, true, true, "", "", true, "", true, "", "", true, none, fun _ => false⟩
          ⟨[], []⟩ ⟨none, fun _ => false, 40000⟩ "deploy-h" "h" "/w/h" 5 =
        (.error .noMode, []) :=
  ⟨rfl,
    deploy_mode_selection.1 (some "1") (some "1") true
      ⟨true, true, true, "", "", true, "", true, "", "", true, none, fun _ => false⟩
      ⟨[], []⟩ ⟨none, fun _ => false, 40000⟩ "deploy-h" "h" "/w/h" 5 rfl,
    by decide,
    deploy_mode_selection.2 none none false
      ⟨true, true, true, "", "", true, "", true, "", "", true, none, fun _ => false⟩
      ⟨[], []⟩ ⟨none, fun _ => false, 40000⟩ "deploy-h" "h" "/w/h" 5
      (by decide) (by decide) rfl⟩

end DeployApi
